import Mathlib

/-!
Verification of the agent orchestration core of the Standard-AI-Framework
Python service template (`src/templates/service-python`).

The development shallowly embeds the pure control structure of the code:

* the shared data model of `src/models/__init__.py` (`Message`, `ToolCall`,
  `ToolResult`, `AgentConfig`);
* the tool registry of `src/tools/__init__.py` (`TOOLS`, `get_tool`);
* the agent loop of `src/agents/__init__.py` (`Agent.chat`,
  `Agent._execute_tool`);
* the pure translation layers of the two provider adapters
  (`AnthropicProvider.complete` message conversion, `OpenAIProvider.complete`
  tool-call argument parsing).

Network calls (the vendor clients) and the bodies of the built-in tools
(`eval`-based calculator, wall-clock time, JSON parsing) are inherently
effectful, so they are modelled as an explicit environment (`Env`): a
function giving the provider response (or raised error) for each iteration,
and a function giving each registered tool body's outcome (or raised
exception).  Raised Python exceptions are modelled as `Except.error`.
-/

namespace StdAI

/-- Python runtime values carried in tool arguments, tool results and
message payloads.  The atomic shapes are the ones the code ever inspects;
structured list/dict values never influence any control decision in the
embedded code, so they are not needed by any property below. -/
inductive Value where
  | vNone : Value
  | vBool : Bool → Value
  | vInt : Int → Value
  | vFloat : ℚ → Value
  | vStr : String → Value
deriving DecidableEq

/-- Python truthiness (`if x:`) on the embedded values: `None`, `False`,
numeric zero and the empty string are falsy. -/
def pyTruthy : Value → Bool
  | Value.vNone => false
  | Value.vBool b => b
  | Value.vInt n => decide (n ≠ 0)
  | Value.vFloat q => decide (q ≠ 0)
  | Value.vStr s => decide (s ≠ "")

/-- Python float `str` rendering, faithful on integral floats (the only
floats any property below evaluates): `str(4.0) = "4.0"`, `str(0.0) = "0.0"`.
Non-integral rationals get a num/den rendering as a placeholder. -/
def floatStr (q : ℚ) : String :=
  if q.den = 1 then toString q.num ++ ".0"
  else toString q.num ++ "/" ++ toString q.den

/-- Python `str()` of an embedded value. -/
def pyStr : Value → String
  | Value.vNone => "None"
  | Value.vBool true => "True"
  | Value.vBool false => "False"
  | Value.vInt n => toString n
  | Value.vFloat q => floatStr q
  | Value.vStr s => s

/-- A tool-argument mapping (`dict[str, Any]`), string keys to values. -/
def Args : Type := List (String × Value)

instance : DecidableEq Args := by
  unfold Args
  infer_instance

/-- `MessageRole` enum of `src/models/__init__.py`. -/
inductive MessageRole where
  | user : MessageRole
  | assistant : MessageRole
  | system : MessageRole
  | tool : MessageRole
deriving DecidableEq

/-- The `.value` string of a `MessageRole` enum member. -/
def roleValue : MessageRole → String
  | MessageRole.user => "user"
  | MessageRole.assistant => "assistant"
  | MessageRole.system => "system"
  | MessageRole.tool => "tool"

/-- `ToolCall` model: id, tool name, argument mapping. -/
structure ToolCall where
  id : String
  name : String
  arguments : Args
deriving DecidableEq

/-- `Message` model.  The `name` and `metadata` fields of the source model
are omitted: `name` is never assigned anywhere in the code and `metadata`
is an opaque token-usage annotation written by the adapters and read
nowhere, so neither can influence any property below. -/
structure Message where
  role : MessageRole
  content : String
  tool_call_id : Option String := none
  tool_calls : Option (List ToolCall) := none
deriving DecidableEq

/-- `ToolResult` model: the answered call's id, a result value
(`Value.vNone` embeds Python `None`), and an optional error string. -/
structure ToolResult where
  tool_call_id : String
  result : Value
  error : Option String := none
deriving DecidableEq

/-- `AgentConfig` model, restricted to the fields the embedded control flow
reads (`provider`, `model`, `temperature`, `max_tokens` are forwarded
opaquely to the provider environment and omitted here). -/
structure AgentConfig where
  id : String
  name : String
  system_prompt : String := ""
  tools : List String := []
deriving DecidableEq

/-- Keys of the global `TOOLS` registry dict of `src/tools/__init__.py`,
in source order. -/
def registeredToolNames : List String :=
  ["calculator", "current_time", "json_parse"]

/-- The effectful surroundings of one loop invocation: `complete i conv` is
what `self.provider.complete` produces on the i-th provider call (1-based,
matching the `iterations` counter) given the current conversation, either a
response `Message` or a raised exception; `toolExec name args` is the
outcome of the registered tool body `tool.execute(args)` (the built-in
bodies use `eval`, the wall clock and `json.loads`, so they live in the
environment, not in the embedding). -/
structure Env where
  complete : Nat → List Message → Except String Message
  toolExec : String → Args → Except String Value

/-- `get_tool` of `src/tools/__init__.py`: `TOOLS.get(name)`, a total
lookup returning the tool body for a registered name and `None` otherwise.
Note that it consults only the global registry; no agent configuration is
involved. -/
def get_tool (env : Env) (name : String) : Option (Args → Except String Value) :=
  if registeredToolNames.contains name then some (env.toolExec name) else none

/-- `Agent._execute_tool`: look the tool up in the global registry; absence
yields a not-found `ToolResult`; otherwise run the body, and the
`try/except Exception` wrapper turns any raised exception `e` into a
`ToolResult` with `error = str(e)`.  Totality of this Lean function mirrors
that wrapper: no outcome escapes as an exception. -/
def execute_tool (env : Env) (tc : ToolCall) : ToolResult :=
  match get_tool env tc.name with
  | none => { tool_call_id := tc.id, result := Value.vNone, error := some ("Tool not found: " ++ tc.name) }
  | some body =>
    match body tc.arguments with
    | Except.ok v => { tool_call_id := tc.id, result := v, error := none }
    | Except.error e => { tool_call_id := tc.id, result := Value.vNone, error := some e }

/-- Python `opt or ""` on an optional string: the string when truthy
(non-empty), otherwise the empty string. -/
def pyOrEmpty : Option String → String
  | none => ""
  | some s => if s = "" then "" else s

/-- Content of the tool-role message appended for a `ToolResult`, line 253
of `src/agents/__init__.py`:
`str(result.result) if result.result else result.error or ""`.
The guard is Python truthiness of the result value, not a `None` test. -/
def renderContent (r : ToolResult) : String :=
  if pyTruthy r.result then pyStr r.result else pyOrEmpty r.error

/-- The tool-role `Message` appended to the conversation for one dispatched
tool call. -/
def toolResultMessage (tc : ToolCall) (r : ToolResult) : Message :=
  { role := MessageRole.tool, content := renderContent r, tool_call_id := some tc.id, tool_calls := none }

/-- Python truthiness of the `tool_calls` field (`if not response.tool_calls`):
falsy when absent or the empty list. -/
def pyTruthyToolCalls : Option (List ToolCall) → Bool
  | none => false
  | some l => !l.isEmpty

/-- The canned advisory message returned when the iteration cap is
exhausted (lines 264-267 of `src/agents/__init__.py`). -/
def maxIterMessage : Message :=
  { role := MessageRole.assistant,
    content := "I\x27ve reached the maximum number of steps. Please try again with a simpler request.",
    tool_call_id := none, tool_calls := none }

/-- One `list.append` in Python, tracking aliasing between the caller's
list and the loop's working list: the element is appended to the working
list, and also to the caller's list exactly when the two names alias the
same object (`copied = false`).  `Agent.chat` builds its working list with
`list(messages)`, a fresh object, so it instantiates `copied := true`. -/
def appendMsg («copied» : Bool) (caller current : List Message) (m : Message) : List Message × List Message :=
  (if «copied» then caller else caller ++ [m], current ++ [m])

/-- The `for tool_call in response.tool_calls` body of `Agent.chat`
(lines 239-256): execute each call in order, append its `ToolResult` to the
accumulated result list and the derived tool-role message to the
conversation.  Returns (caller list, working list, result list). -/
def dispatchLoop (env : Env) («copied» : Bool) :
    List ToolCall → List Message → List Message → List ToolResult →
    List Message × List Message × List ToolResult
  | [], caller, current, results => (caller, current, results)
  | tc :: rest, caller, current, results =>
    let r := execute_tool env tc
    let pair := appendMsg «copied» caller current (toolResultMessage tc r)
    dispatchLoop env «copied» rest pair.1 pair.2 (results ++ [r])

/-- Observable outcome of one `Agent.chat` invocation: the returned pair or
the raised exception, together with instrumentation (how many provider
calls were made, how many tool batches were dispatched) and the final
contents of the caller's message list. -/
structure LoopOut where
  outcome : Except String (Message × List ToolResult)
  providerCalls : Nat
  batches : Nat
  callerFinal : List Message

/-- The `while iterations < max_iterations` loop of `Agent.chat`
(lines 205-267).  `fuel` is `max_iterations - iterations`, so the guard
`iterations < max_iterations` is exactly `fuel > 0`; `iter` is the value of
`iterations` before the in-body increment, and the provider is called with
the incremented (1-based) iteration index.  A raised provider exception
aborts the Python function immediately: the local `tool_results` list is
discarded and only the exception reaches the caller, which the
`Except.error` branch mirrors. -/
def chatAux (env : Env) («copied» : Bool) :
    Nat → List Message → List Message → List ToolResult → Nat → Nat → Nat → LoopOut
  | 0, caller, _current, results, _iter, calls, batches =>
    { outcome := Except.ok (maxIterMessage, results),
      providerCalls := calls, batches := batches, callerFinal := caller }
  | fuel + 1, caller, current, results, iter, calls, batches =>
    match env.complete (iter + 1) current with
    | Except.error e =>
      { outcome := Except.error e, providerCalls := calls + 1,
        batches := batches, callerFinal := caller }
    | Except.ok response =>
      if pyTruthyToolCalls response.tool_calls then
        let pair := appendMsg «copied» caller current response
        let trip := dispatchLoop env «copied» (response.tool_calls.getD []) pair.1 pair.2 results
        chatAux env «copied» fuel trip.1 trip.2.1 trip.2.2 (iter + 1) (calls + 1) (batches + 1)
      else
        { outcome := Except.ok (response, results), providerCalls := calls + 1,
          batches := batches, callerFinal := caller }

/-- `list(messages)` on line 206: a fresh list object holding the same
elements.  The value is unchanged; the freshness is recorded by running the
loop with `copied := true`. -/
def pyListCopy (l : List Message) : List Message := l

/-- `Agent.chat` with full instrumentation: start from the caller's
conversation, a fresh working copy, empty results and `iterations = 0`. -/
def chatFull (env : Env) (messages : List Message) (max_iterations : Nat) : LoopOut :=
  chatAux env true max_iterations messages (pyListCopy messages) [] 0 0 0

/-- `Agent.chat` as the caller observes it: the returned pair, or the
propagated exception. -/
def chat (env : Env) (messages : List Message) (max_iterations : Nat) :
    Except String (Message × List ToolResult) :=
  (chatFull env messages max_iterations).outcome

/-- Message conversion of `AnthropicProvider.complete` (lines 56-61 of
`src/agents/__init__.py`): the backend request keeps only messages whose
role is `user` or `assistant`, rendered as role/content string pairs; every
other message, in particular every tool-role message, is dropped. -/
def anthropicConvertMessages (msgs : List Message) : List (String × String) :=
  (msgs.filter fun m =>
    match m.role with
    | MessageRole.user => true
    | MessageRole.assistant => true
    | _ => false).map fun m => (roleValue m.role, m.content)

/-- Message conversion of `OpenAIProvider.complete` (lines 122-126): a
leading system entry followed by every conversation message, all roles
included, as role/content string pairs. -/
def openaiConvertMessages (system_prompt : String) (msgs : List Message) : List (String × String) :=
  ("system", system_prompt) :: msgs.map fun m => (roleValue m.role, m.content)

/-- The `function` payload of a raw OpenAI tool call: a name and the
argument payload as an (encoded) string. -/
structure OpenAIFunctionPayload where
  name : String
  arguments : String
deriving DecidableEq

/-- A raw tool call as it arrives in an OpenAI chat completion choice. -/
structure OpenAIRawToolCall where
  id : String
  function : OpenAIFunctionPayload
deriving DecidableEq

/-- Tool-call argument decoding of `OpenAIProvider.complete` (lines
150-159): the list comprehension decodes each raw call's argument payload
with `eval(tc.function.arguments)` in order.  `eval` is arbitrary Python
evaluation, so the decoder is a parameter `pyEval`; a payload on which it
raises aborts the whole comprehension with that exception — there is no
handler, and no fallback to an empty mapping. -/
def openaiParseToolCalls (pyEval : String → Except String Args) :
    List OpenAIRawToolCall → Except String (List ToolCall)
  | [] => Except.ok []
  | tc :: rest =>
    match pyEval tc.function.arguments with
    | Except.error e => Except.error e
    | Except.ok args =>
      match openaiParseToolCalls pyEval rest with
      | Except.error e => Except.error e
      | Except.ok parsed => Except.ok ({ id := tc.id, name := tc.function.name, arguments := args } :: parsed)

/-- The `tool_calls = None; if choice.message.tool_calls:` wrapper: an
absent or empty raw list leaves `tool_calls` as `None`; otherwise the
decoded list is used. -/
def openaiExtractToolCalls (pyEval : String → Except String Args)
    (raw : Option (List OpenAIRawToolCall)) : Except String (Option (List ToolCall)) :=
  match raw with
  | none => Except.ok none
  | some l =>
    if l.isEmpty then Except.ok none
    else
      match openaiParseToolCalls pyEval l with
      | Except.error e => Except.error e
      | Except.ok parsed => Except.ok (some parsed)

/-- Response construction of `OpenAIProvider.complete` (lines 149-170):
decode the raw tool calls, then build the assistant message with
`choice.message.content or ""` as content.  A decode failure propagates
out of `complete` as the raised exception. -/
def openaiBuildResponse (pyEval : String → Except String Args)
    (content : Option String) (raw : Option (List OpenAIRawToolCall)) : Except String Message :=
  match openaiExtractToolCalls pyEval raw with
  | Except.error e => Except.error e
  | Except.ok tcs =>
    Except.ok { role := MessageRole.assistant, content := pyOrEmpty content,
                tool_call_id := none, tool_calls := tcs }

/-- Pydantic parsing of a role string into the `MessageRole` enum: exactly
the four declared enum values are accepted. -/
def parseRole (s : String) : Option MessageRole :=
  if s = "user" then some MessageRole.user
  else if s = "assistant" then some MessageRole.assistant
  else if s = "system" then some MessageRole.system
  else if s = "tool" then some MessageRole.tool
  else none

/-- Construction of a `Message` (lines 46-54 of `src/models/__init__.py`).
The class declares plain typed fields and no validator, so pydantic
validation consists of the field type checks alone — here, parsing the role
enum value; in the typed embedding every other field is well-typed by
construction.  No cross-field invariant is checked anywhere. -/
def mkMessage (role : String) (content : String) (tool_call_id : Option String)
    (tool_calls : Option (List ToolCall)) : Except String Message :=
  match parseRole role with
  | some r => Except.ok { role := r, content := content, tool_call_id := tool_call_id, tool_calls := tool_calls }
  | none => Except.error "validation error: role"

/-- Whether a tool-call list repeats an identifier. -/
def hasDuplicateIds : List ToolCall → Bool
  | [] => false
  | tc :: rest => rest.any (fun o => o.id == tc.id) || hasDuplicateIds rest

/-- The paragraph-3 message invariants of the specification: a tool-role
message carries a tool-call identifier, and a present tool-call list is
non-empty with pairwise distinct identifiers. -/
def messageInvariantHolds (m : Message) : Bool :=
  (match m.role, m.tool_call_id with
   | MessageRole.tool, none => false
   | _, _ => true) &&
  (match m.tool_calls with
   | none => true
   | some l => !l.isEmpty && !hasDuplicateIds l)

/-!  Concrete fixtures used by witnesses and counterexamples. -/

/-- A user message opening a conversation. -/
def userMsg : Message :=
  { role := MessageRole.user, content := "what is 2+2", tool_call_id := none, tool_calls := none }

/-- Arguments of a calculator call. -/
def calcArgs : Args := [("expression", Value.vStr "2+2")]

/-- A calculator tool call. -/
def calcCall : ToolCall := { id := "call-1", name := "calculator", arguments := calcArgs }

/-- An assistant response requesting the calculator call. -/
def calcRequestMsg : Message :=
  { role := MessageRole.assistant, content := "", tool_call_id := none,
    tool_calls := some [calcCall] }

/-- A plain-text assistant response with no tool calls. -/
def plainMsg : Message :=
  { role := MessageRole.assistant, content := "4", tool_call_id := none, tool_calls := none }

/-- Tool bodies for the fixtures: the calculator behaves as
`CalculatorTool.execute` does on the expression `2+2` (`eval` gives `4`,
then `float(4) = 4.0`); the clock returns a fixed timestamp string; the
JSON tool is unused. -/
def fixtureToolExec : String → Args → Except String Value := fun nm _args =>
  if nm = "calculator" then Except.ok (Value.vFloat 4)
  else if nm = "current_time" then Except.ok (Value.vStr "2026-10-12T00:00:00Z")
  else Except.error "unused"

/-- Environment in which the provider requests the calculator on iteration
1 and raises on every later iteration (a backend failure on the second
call). -/
def envFailSecond : Env :=
  { complete := fun i _msgs => if i = 1 then Except.ok calcRequestMsg else Except.error "boom",
    toolExec := fixtureToolExec }

/-- Environment in which every completion requests the calculator call. -/
def envAlwaysTool : Env :=
  { complete := fun _i _msgs => Except.ok calcRequestMsg,
    toolExec := fixtureToolExec }

/-- Environment in which the provider requests the calculator on iteration
1 and answers plainly afterwards. -/
def envOneTool : Env :=
  { complete := fun i _msgs => if i = 1 then Except.ok calcRequestMsg else Except.ok plainMsg,
    toolExec := fixtureToolExec }

/-- A clock tool call (second element of a two-call batch). -/
def clockCall : ToolCall := { id := "call-2", name := "current_time", arguments := [] }

/-- An assistant response requesting the two-call batch
[calculator, clock]. -/
def batchRequestMsg : Message :=
  { role := MessageRole.assistant, content := "", tool_call_id := none,
    tool_calls := some [calcCall, clockCall] }

/-- Environment for the two-call batch: the calculator body raises (as
`CalculatorTool.execute` does on an invalid expression, re-raised as
`ValueError`), the clock succeeds, and the provider requests the batch on
iteration 1 and answers plainly afterwards. -/
def envBatch : Env :=
  { complete := fun i _msgs => if i = 1 then Except.ok batchRequestMsg else Except.ok plainMsg,
    toolExec := fun nm _args =>
      if nm = "calculator" then Except.error "Invalid expression: boom"
      else if nm = "current_time" then Except.ok (Value.vStr "2026-10-12 00:00:00 UTC")
      else Except.error "unused" }

/-- A calculator call whose expression evaluates to zero. -/
def zeroCall : ToolCall :=
  { id := "call-z", name := "calculator", arguments := [("expression", Value.vStr "0*5")] }

/-- Environment whose calculator body returns the float `0.0`, exactly what
`CalculatorTool.execute` produces on the expression `0*5`
(`float(eval("0*5")) = 0.0`). -/
def envZero : Env :=
  { complete := fun _i _msgs => Except.ok plainMsg,
    toolExec := fun nm _args =>
      if nm = "calculator" then Except.ok (Value.vFloat 0) else Except.error "unused" }

/-- The conversation as it stands when the loop requests its second
completion in `envOneTool`: the user message, the assistant tool request,
and the appended tool-role result message (content `str(4.0) = "4.0"`). -/
def convAfterBatch : List Message :=
  [userMsg, calcRequestMsg,
   { role := MessageRole.tool, content := "4.0", tool_call_id := some "call-1", tool_calls := none }]

/-- The `coder` entry of `DEFAULT_AGENTS` (lines 311-319 of
`src/agents/__init__.py`), whose allowed tool list is empty. -/
def coderConfig : AgentConfig :=
  { id := "coder", name := "Code Assistant",
    system_prompt := "You are an expert software engineer.", tools := [] }

/-- A raw OpenAI tool call whose argument payload cannot be decoded. -/
def badPayloadCall : OpenAIRawToolCall :=
  { id := "t1", function := { name := "calculator", arguments := "bad" } }

/-- A decoder fixture: decoding succeeds only on the payload `"good"`,
mirroring `eval` raising a `SyntaxError` on a non-decodable payload. -/
def pyEvalFixture : String → Except String Args := fun s =>
  if s = "good" then Except.ok calcArgs else Except.error "SyntaxError: invalid syntax"

/-!  Helper lemmas about the dispatch loop and the chat loop. -/

/-- The dispatch loop appends exactly one `ToolResult` per call, in call
order. -/
lemma dispatchLoop_results (env : Env) (c : Bool) (tcs : List ToolCall) :
    ∀ (caller current : List Message) (results : List ToolResult),
    (dispatchLoop env c tcs caller current results).2.2 = results ++ tcs.map (execute_tool env) := by
  induction tcs with
  | nil => intro caller current results; simp [dispatchLoop]
  | cons tc rest ih => intro caller current results; simp [dispatchLoop, appendMsg, ih]

/-- The dispatch loop appends exactly one tool-role message per call to the
working conversation, in call order. -/
lemma dispatchLoop_current (env : Env) (c : Bool) (tcs : List ToolCall) :
    ∀ (caller current : List Message) (results : List ToolResult),
    (dispatchLoop env c tcs caller current results).2.1 =
      current ++ tcs.map (fun tc => toolResultMessage tc (execute_tool env tc)) := by
  induction tcs with
  | nil => intro caller current results; simp [dispatchLoop]
  | cons tc rest ih => intro caller current results; simp [dispatchLoop, appendMsg, ih]

/-- With a freshly copied working list, dispatch never touches the
caller's list. -/
lemma dispatchLoop_caller (env : Env) (tcs : List ToolCall) :
    ∀ (caller current : List Message) (results : List ToolResult),
    (dispatchLoop env true tcs caller current results).1 = caller := by
  induction tcs with
  | nil => intro caller current results; simp [dispatchLoop]
  | cons tc rest ih => intro caller current results; simp [dispatchLoop, appendMsg, ih]

/-- With a freshly copied working list, the whole loop never touches the
caller's list. -/
lemma chatAux_caller (env : Env) (fuel : Nat) :
    ∀ (caller current : List Message) (results : List ToolResult) (iter calls batches : Nat),
    (chatAux env true fuel caller current results iter calls batches).callerFinal = caller := by
  induction fuel with
  | zero => intro caller current results iter calls batches; simp [chatAux]
  | succ n ih =>
    intro caller current results iter calls batches
    unfold chatAux
    cases h : env.complete (iter + 1) current with
    | error e => simp
    | ok response =>
      by_cases ht : pyTruthyToolCalls response.tool_calls
      · simp only [ht, if_true]
        rw [ih, dispatchLoop_caller]
        simp [appendMsg]
      · simp [ht]

/-- The provider-call counter never decreases along the loop. -/
lemma chatAux_calls_mono (env : Env) (c : Bool) (fuel : Nat) :
    ∀ (caller current : List Message) (results : List ToolResult) (iter calls batches : Nat),
    calls ≤ (chatAux env c fuel caller current results iter calls batches).providerCalls := by
  induction fuel with
  | zero => intro caller current results iter calls batches; simp [chatAux]
  | succ n ih =>
    intro caller current results iter calls batches
    unfold chatAux
    cases h : env.complete (iter + 1) current with
    | error e => simp
    | ok response =>
      by_cases ht : pyTruthyToolCalls response.tool_calls
      · simp only [ht, if_true]
        exact le_trans (Nat.le_succ calls) (ih _ _ _ _ _ _)
      · simp [ht]

/-- Each surviving unit of fuel admits at most one provider call. -/
lemma chatAux_calls_le (env : Env) (c : Bool) (fuel : Nat) :
    ∀ (caller current : List Message) (results : List ToolResult) (iter calls batches : Nat),
    (chatAux env c fuel caller current results iter calls batches).providerCalls ≤ calls + fuel := by
  induction fuel with
  | zero => intro caller current results iter calls batches; simp [chatAux]
  | succ n ih =>
    intro caller current results iter calls batches
    unfold chatAux
    cases h : env.complete (iter + 1) current with
    | error e => simp
    | ok response =>
      by_cases ht : pyTruthyToolCalls response.tool_calls
      · simp only [ht, if_true]
        exact le_trans (ih _ _ _ _ _ _) (by omega)
      · simp [ht]

/-- With at least one unit of fuel left, at least one further provider call
is made. -/
lemma chatAux_calls_lower (env : Env) (c : Bool) (fuel : Nat) :
    ∀ (caller current : List Message) (results : List ToolResult) (iter calls batches : Nat),
    calls + 1 ≤ (chatAux env c (fuel + 1) caller current results iter calls batches).providerCalls := by
  intro caller current results iter calls batches
  unfold chatAux
  cases h : env.complete (iter + 1) current with
  | error e => simp
  | ok response =>
    by_cases ht : pyTruthyToolCalls response.tool_calls
    · simp only [ht, if_true]
      exact chatAux_calls_mono env c fuel _ _ _ _ _ _
    · simp [ht]

/-- An unregistered tool name short-circuits to the not-found result; no
body is consulted. -/
lemma execute_tool_not_found (env : Env) (tc : ToolCall) (h : tc.name ∉ registeredToolNames) :
    execute_tool env tc =
      { tool_call_id := tc.id, result := Value.vNone,
        error := some ("Tool not found: " ++ tc.name) } := by
  unfold execute_tool get_tool
  rw [if_neg (by simpa using h)]

/-- A registered tool name is always executed: the result is exactly the
body's outcome, converted by the `try/except` wrapper. -/
lemma execute_tool_found (env : Env) (tc : ToolCall) (h : tc.name ∈ registeredToolNames) :
    execute_tool env tc =
      match env.toolExec tc.name tc.arguments with
      | Except.ok v => { tool_call_id := tc.id, result := v, error := none }
      | Except.error e => { tool_call_id := tc.id, result := Value.vNone, error := some e } := by
  unfold execute_tool get_tool
  rw [if_pos (by simpa using h)]

/-- C9: `_execute_tool` is total and always returns a `ToolResult` whose
`tool_call_id` is the dispatched call's id; an error-carrying result has
result `None`, and a result with a non-`None` value carries no error, so
result and error are never both set.  Totality over every environment is
exactly the `try/except Exception` wrapper: no tool-body outcome escapes
as an exception. -/
theorem execute_tool_result_invariants (env : Env) (tc : ToolCall) :
    (execute_tool env tc).tool_call_id = tc.id ∧
    (∀ e, (execute_tool env tc).error = some e → (execute_tool env tc).result = Value.vNone) ∧
    ((execute_tool env tc).result ≠ Value.vNone → (execute_tool env tc).error = none) := by
  by_cases hr : tc.name ∈ registeredToolNames
  · rw [execute_tool_found env tc hr]
    cases h2 : env.toolExec tc.name tc.arguments with
    | ok v => simp
    | error e => simp
  · rw [execute_tool_not_found env tc hr]
    simp

/-- Witness for C9: an unregistered call produces an error-carrying result
with result `None`; a successful calculator call carries no error. -/
theorem execute_tool_result_invariants_witness :
    (execute_tool envOneTool { id := "7", name := "nope", arguments := [] }).result = Value.vNone ∧
    (execute_tool envOneTool calcCall).error = none := by
  constructor
  · exact (execute_tool_result_invariants envOneTool
      { id := "7", name := "nope", arguments := [] }).2.1 "Tool not found: nope" rfl
  · exact (execute_tool_result_invariants envOneTool calcCall).2.2 (by decide)

/-- C10: `Agent.chat` never mutates the caller's message list: line 206
copies it (`current_messages = list(messages)`) and every append targets
the copy, so after the call the caller's list holds exactly its original
elements in the original order. -/
theorem chat_preserves_caller_messages (env : Env) (msgs : List Message) (N : Nat) :
    (chatFull env msgs N).callerFinal = msgs := by
  unfold chatFull
  exact chatAux_caller env N msgs (pyListCopy msgs) [] 0 0 0

/-- Had line 206 aliased the caller's list instead of copying it, the
caller's list would change: the frame property above is not vacuous. -/
lemma chatAux_alias_contrast :
    (chatAux envOneTool false 1 [userMsg] [userMsg] [] 0 0 0).callerFinal ≠ [userMsg] := by
  decide

/-- C4 counterexample: the claim asserts a not-found result for any tool
absent from the agent's allowed list, but dispatch consults only the global
registry.  For the `coder` agent (allowed tools empty) a calculator call is
executed and succeeds; no not-found result is produced. -/
theorem disallowed_tool_executes_cex :
    registeredToolNames.contains "calculator" = true ∧
    coderConfig.tools.contains "calculator" = false ∧
    execute_tool envOneTool calcCall =
      { tool_call_id := "call-1", result := Value.vFloat 4, error := none } := by
  refine ⟨rfl, rfl, ?_⟩
  decide

/-- C4 amended: only a name missing from the global registry yields the
`"Tool not found: <name>"` result with no execution; a registered name is
always executed, whether or not the agent's allowed tool list contains it
(that list governs only which schemas are advertised to the provider).
Neither branch can crash the loop. -/
theorem tool_dispatch_registry_only :
    (∀ (env : Env) (tc : ToolCall), tc.name ∉ registeredToolNames →
      execute_tool env tc =
        { tool_call_id := tc.id, result := Value.vNone,
          error := some ("Tool not found: " ++ tc.name) }) ∧
    (∀ (env : Env) (tc : ToolCall), tc.name ∈ registeredToolNames →
      execute_tool env tc =
        match env.toolExec tc.name tc.arguments with
        | Except.ok v => { tool_call_id := tc.id, result := v, error := none }
        | Except.error e => { tool_call_id := tc.id, result := Value.vNone, error := some e }) :=
  ⟨execute_tool_not_found, execute_tool_found⟩

/-- Witness for C4 amended: a call to the unregistered name `nope` yields
the not-found result. -/
theorem tool_dispatch_registry_only_witness :
    execute_tool envOneTool { id := "9", name := "nope", arguments := [] } =
      { tool_call_id := "9", result := Value.vNone, error := some "Tool not found: nope" } :=
  tool_dispatch_registry_only.1 envOneTool { id := "9", name := "nope", arguments := [] } (by decide)

/-- C8 counterexample: constructing a tool-role message without a tool-call
identifier succeeds; no `ValidationError` is raised even though the
claimed invariant is violated, because the `Message` class declares no
validator. -/
theorem message_no_validation_cex :
    mkMessage "tool" "x" none none =
      Except.ok { role := MessageRole.tool, content := "x", tool_call_id := none, tool_calls := none } ∧
    messageInvariantHolds
      { role := MessageRole.tool, content := "x", tool_call_id := none, tool_calls := none } = false := by
  exact ⟨rfl, rfl⟩

/-- C8 amended: `Message` construction checks only the field types (here,
that the role string is one of the four enum values); it checks none of the
paragraph-3 invariants, so any well-typed field combination — including a
tool message without an identifier or an assistant message with an empty or
duplicate-id tool-call list — constructs successfully. -/
theorem mkMessage_type_checks_only :
    (∀ (role content : String) (tcid : Option String) (tcs : Option (List ToolCall)) (r : MessageRole),
      parseRole role = some r →
      mkMessage role content tcid tcs =
        Except.ok { role := r, content := content, tool_call_id := tcid, tool_calls := tcs }) ∧
    (∀ (role content : String) (tcid : Option String) (tcs : Option (List ToolCall)),
      parseRole role = none →
      mkMessage role content tcid tcs = Except.error "validation error: role") := by
  constructor
  · intro role content tcid tcs r h
    simp [mkMessage, h]
  · intro role content tcid tcs h
    simp [mkMessage, h]

/-- Witness for C8 amended: an assistant message with an empty tool-call
list (invariant-violating) constructs successfully. -/
theorem mkMessage_type_checks_only_witness :
    mkMessage "assistant" "y" none (some []) =
      Except.ok { role := MessageRole.assistant, content := "y",
                  tool_call_id := none, tool_calls := some [] } :=
  mkMessage_type_checks_only.1 "assistant" "y" none (some []) MessageRole.assistant rfl

/-- C7 counterexample: a successful calculator result `0.0` is falsy, so
line 253 renders the tool message content as the empty string even though
the value has the representation `"0.0"`; the claim that content is empty
only when a successful result has no representable value is false. -/
theorem falsy_result_renders_empty_cex :
    execute_tool envZero zeroCall =
      { tool_call_id := "call-z", result := Value.vFloat 0, error := none } ∧
    (toolResultMessage zeroCall (execute_tool envZero zeroCall)).content = "" ∧
    pyStr (Value.vFloat 0) = "0.0" := by
  refine ⟨by decide, by decide, rfl⟩

/-- C7 amended: every dispatched tool call appends to the conversation a
tool-role message carrying the call's identifier whose content is
`str(result)` when the result value is truthy, otherwise the error string
when present, otherwise empty — so the content is empty whenever the
successful result is absent or falsy (e.g. the float `0.0`), not only when
there is no representable value — and appends the outcome to the cumulative
result list, both in call order. -/
theorem tool_outcome_recording (env : Env) (c : Bool) (tcs : List ToolCall)
    (caller current : List Message) (results : List ToolResult) :
    (dispatchLoop env c tcs caller current results).2.1 =
      current ++ tcs.map (fun tc =>
        { role := MessageRole.tool,
          content := if pyTruthy (execute_tool env tc).result
                     then pyStr (execute_tool env tc).result
                     else pyOrEmpty (execute_tool env tc).error,
          tool_call_id := some tc.id, tool_calls := none }) ∧
    (dispatchLoop env c tcs caller current results).2.2 = results ++ tcs.map (execute_tool env) := by
  constructor
  · rw [dispatchLoop_current]
    simp [toolResultMessage, renderContent]
  · exact dispatchLoop_results env c tcs caller current results

/-- C1 counterexample: with a provider that requests the calculator on
iteration 1 and raises on iteration 2, `Agent.chat` with cap 5 yields only
the propagated error — an outcome carrying no `ToolResult` — even though
iteration 1 accumulated one successful result, as the cap-1 run of the same
environment exhibits.  The accumulated results are discarded, not returned
alongside the error. -/
theorem chat_failure_discards_results_cex :
    chat envFailSecond [userMsg] 5 = Except.error "boom" ∧
    chat envFailSecond [userMsg] 1 =
      Except.ok (maxIterMessage,
        [{ tool_call_id := "call-1", result := Value.vFloat 4, error := none }]) := by
  constructor
  · rfl
  · rfl

/-- C1 amended: when the provider's `complete` raises on any iteration, the
loop surfaces that error to the caller immediately — but the `ToolResult`
list accumulated in prior iterations is discarded, not returned alongside
the error: the outcome is the bare error, for every value of the
accumulated result list. -/
theorem chat_provider_failure_propagates (env : Env) (c : Bool) (fuel : Nat)
    (caller current : List Message) (results : List ToolResult)
    (iter calls batches : Nat) (e : String)
    (h : env.complete (iter + 1) current = Except.error e) :
    (chatAux env c (fuel + 1) caller current results iter calls batches).outcome =
      Except.error e := by
  simp [chatAux, h]

/-- Witness for C1 amended: in the failing environment, the loop state
after iteration 1 (one accumulated result, one call made) meets a raising
iteration 2, and the outcome is the bare error. -/
theorem chat_provider_failure_propagates_witness :
    (chatAux envFailSecond true 3 [userMsg] convAfterBatch
      [{ tool_call_id := "call-1", result := Value.vFloat 4, error := none }] 1 1 1).outcome =
      Except.error "boom" :=
  chat_provider_failure_propagates envFailSecond true 2 [userMsg] convAfterBatch
    [{ tool_call_id := "call-1", result := Value.vFloat 4, error := none }] 1 1 1 "boom" rfl

/-- C2: the iteration cap is respected — at most `N` provider calls are
ever made with cap `N` — and in the cap-1 scenario against a provider that
always requests tool calls, exactly one provider call and exactly one
dispatch batch happen, after which the canned advisory message is returned
together with all accumulated `ToolResult`s of that single batch. -/
theorem chat_iteration_cap (env : Env) (msgs : List Message) (N : Nat) :
    (chatFull env msgs N).providerCalls ≤ N ∧
    ((∀ (i : Nat) (ms : List Message), ∃ m,
        env.complete i ms = Except.ok m ∧ pyTruthyToolCalls m.tool_calls = true) →
      ∃ m, env.complete 1 (pyListCopy msgs) = Except.ok m ∧
        (chatFull env msgs 1).providerCalls = 1 ∧
        (chatFull env msgs 1).batches = 1 ∧
        chat env msgs 1 =
          Except.ok (maxIterMessage, (m.tool_calls.getD []).map (execute_tool env))) := by
  constructor
  · have h := chatAux_calls_le env true N msgs (pyListCopy msgs) [] 0 0 0
    simpa [chatFull] using h
  · intro hprov
    obtain ⟨m, hm, htr⟩ := hprov 1 (pyListCopy msgs)
    refine ⟨m, hm, ?_, ?_, ?_⟩
    · simp [chatFull, chatAux, hm, htr]
    · simp [chatFull, chatAux, hm, htr]
    · simp [chat, chatFull, chatAux, hm, htr, dispatchLoop_results]

/-- Witness for C2: the always-tool-calling environment makes exactly one
call and one batch under cap 1 and returns the canned message with the
single calculator result. -/
theorem chat_iteration_cap_witness :
    (chatFull envAlwaysTool [userMsg] 1).providerCalls ≤ 1 ∧
    (∃ m, envAlwaysTool.complete 1 (pyListCopy [userMsg]) = Except.ok m ∧
      (chatFull envAlwaysTool [userMsg] 1).providerCalls = 1 ∧
      (chatFull envAlwaysTool [userMsg] 1).batches = 1 ∧
      chat envAlwaysTool [userMsg] 1 =
        Except.ok (maxIterMessage, (m.tool_calls.getD []).map (execute_tool envAlwaysTool))) := by
  have t := chat_iteration_cap envAlwaysTool [userMsg] 1
  exact ⟨t.1, t.2 (fun i ms => ⟨calcRequestMsg, rfl, rfl⟩)⟩

/-- C3, evaluated at the failing input: the conversation the loop builds
after the first batch holds the tool-role result message in call order, but
`AnthropicProvider.complete`'s request conversion keeps only user and
assistant entries, so the backend request derived from that conversation
contains no trace of any tool result. -/
theorem anthropic_drops_tool_messages :
    (dispatchLoop envOneTool true [calcCall] [userMsg] [userMsg, calcRequestMsg] []).2.1 =
      convAfterBatch ∧
    anthropicConvertMessages convAfterBatch =
      [("user", "what is 2+2"), ("assistant", "")] := by
  constructor
  · rfl
  · rfl

/-- C5: per-tool failure isolation.  A batch of two calls whose first body
raises and whose second succeeds yields exactly two results — one error,
one success — in call order; every batch yields exactly one result per
call; and with fuel left the loop then proceeds to a further provider
call. -/
theorem tool_batch_error_isolation (env : Env) (a b : ToolCall) (e : String) (v : Value)
    (ha : a.name ∈ registeredToolNames) (hae : env.toolExec a.name a.arguments = Except.error e)
    (hb : b.name ∈ registeredToolNames) (hbv : env.toolExec b.name b.arguments = Except.ok v) :
    (∀ (c : Bool) (caller current : List Message) (results : List ToolResult),
      (dispatchLoop env c [a, b] caller current results).2.2 =
        results ++ [{ tool_call_id := a.id, result := Value.vNone, error := some e },
                    { tool_call_id := b.id, result := v, error := none }]) ∧
    (∀ (c : Bool) (tcs : List ToolCall) (caller current : List Message) (results : List ToolResult),
      ((dispatchLoop env c tcs caller current results).2.2).length = results.length + tcs.length) ∧
    (∀ (msgs : List Message) (N : Nat) (m : Message),
      env.complete 1 (pyListCopy msgs) = Except.ok m → m.tool_calls = some [a, b] → 2 ≤ N →
      2 ≤ (chatFull env msgs N).providerCalls) := by
  refine ⟨?_, ?_, ?_⟩
  · intro c caller current results
    rw [dispatchLoop_results]
    simp only [List.map_cons, List.map_nil]
    rw [execute_tool_found env a ha, execute_tool_found env b hb, hae, hbv]
  · intro c tcs caller current results
    rw [dispatchLoop_results]
    simp
  · intro msgs N m hm htc hN
    obtain ⟨k, rfl⟩ : ∃ k, N = k + 2 := ⟨N - 2, by omega⟩
    unfold chatFull
    show 2 ≤ (chatAux env true (k + 1 + 1) msgs (pyListCopy msgs) [] 0 0 0).providerCalls
    unfold chatAux
    rw [hm]
    have htr : pyTruthyToolCalls m.tool_calls = true := by
      rw [htc]; rfl
    simp only [htr, if_true]
    exact chatAux_calls_lower env true k _ _ _ _ _ _

/-- Witness for C5: in the concrete batch environment the calculator raises
and the clock succeeds; the batch yields the two results in order, and a
second provider call follows under cap 2. -/
theorem tool_batch_error_isolation_witness :
    (dispatchLoop envBatch true [calcCall, clockCall] [userMsg] [userMsg, batchRequestMsg] []).2.2 =
      [{ tool_call_id := "call-1", result := Value.vNone, error := some "Invalid expression: boom" },
       { tool_call_id := "call-2", result := Value.vStr "2026-10-12 00:00:00 UTC", error := none }] ∧
    2 ≤ (chatFull envBatch [userMsg] 2).providerCalls := by
  have t := tool_batch_error_isolation envBatch calcCall clockCall "Invalid expression: boom"
    (Value.vStr "2026-10-12 00:00:00 UTC") (by decide) rfl (by decide) rfl
  exact ⟨t.1 true [userMsg] [userMsg, batchRequestMsg] [], t.2.2 [userMsg] 2 batchRequestMsg rfl rfl (by omega)⟩

/-- C6: a tool-call argument payload the decoder cannot decode makes the
OpenAI adapter's parse — and hence `complete` — propagate the raised error;
and whenever parsing succeeds, every produced `ToolCall` carries exactly
the decoded arguments of its raw call, so a failure is never silently
coerced into an empty (or any other substituted) argument mapping. -/
theorem openai_decode_failure_is_error (pyEval : String → Except String Args) :
    (∀ (raws : List OpenAIRawToolCall) (tc : OpenAIRawToolCall), tc ∈ raws →
      (∃ e, pyEval tc.function.arguments = Except.error e) →
      ∃ e2, openaiParseToolCalls pyEval raws = Except.error e2) ∧
    (∀ (raws : List OpenAIRawToolCall) (tcs : List ToolCall),
      openaiParseToolCalls pyEval raws = Except.ok tcs →
      List.Forall₂ (fun (raw : OpenAIRawToolCall) (tc : ToolCall) =>
        tc.id = raw.id ∧ tc.name = raw.function.name ∧
        pyEval raw.function.arguments = Except.ok tc.arguments) raws tcs) ∧
    (∀ (content : Option String) (l : List OpenAIRawToolCall) (tc : OpenAIRawToolCall), tc ∈ l →
      (∃ e, pyEval tc.function.arguments = Except.error e) →
      ∃ e2, openaiBuildResponse pyEval content (some l) = Except.error e2) := by
  have hfail : ∀ (raws : List OpenAIRawToolCall) (tc : OpenAIRawToolCall), tc ∈ raws →
      (∃ e, pyEval tc.function.arguments = Except.error e) →
      ∃ e2, openaiParseToolCalls pyEval raws = Except.error e2 := by
    intro raws
    induction raws with
    | nil => intro tc h; exact absurd h (List.not_mem_nil tc)
    | cons hd tl ih =>
      intro tc hmem hfe
      cases hhd : pyEval hd.function.arguments with
      | error e0 => exact ⟨e0, by simp [openaiParseToolCalls, hhd]⟩
      | ok args =>
        rcases List.mem_cons.mp hmem with heq | htl
        · obtain ⟨e, he⟩ := hfe
          rw [← heq] at hhd
          exact absurd (he.symm.trans hhd) (by simp)
        · obtain ⟨e2, h2⟩ := ih tc htl hfe
          exact ⟨e2, by simp [openaiParseToolCalls, hhd, h2]⟩
  refine ⟨hfail, ?_, ?_⟩
  · intro raws
    induction raws with
    | nil =>
      intro tcs h
      simp only [openaiParseToolCalls] at h
      cases h
      exact List.Forall₂.nil
    | cons hd tl ih =>
      intro tcs h
      simp only [openaiParseToolCalls] at h
      cases hhd : pyEval hd.function.arguments with
      | error e0 => rw [hhd] at h; cases h
      | ok args =>
        rw [hhd] at h
        cases hrest : openaiParseToolCalls pyEval tl with
        | error e0 => rw [hrest] at h; cases h
        | ok parsed =>
          rw [hrest] at h
          cases h
          exact List.Forall₂.cons ⟨rfl, rfl, hhd⟩ (ih parsed hrest)
  · intro content l tc hmem hfe
    obtain ⟨e2, h2⟩ := hfail l tc hmem hfe
    have hne : l.isEmpty = false := by
      cases l with
      | nil => exact absurd hmem (List.not_mem_nil tc)
      | cons x xs => rfl
    exact ⟨e2, by simp [openaiBuildResponse, openaiExtractToolCalls, hne, h2]⟩

/-- Witness for C6: the fixture decoder raises on the payload `bad`, and
the adapter's response construction propagates that error. -/
theorem openai_decode_failure_is_error_witness :
    ∃ e2, openaiBuildResponse pyEvalFixture (some "") (some [badPayloadCall]) =
      Except.error e2 :=
  (openai_decode_failure_is_error pyEvalFixture).2.2 (some "") [badPayloadCall] badPayloadCall
    (by decide) ⟨"SyntaxError: invalid syntax", rfl⟩

end StdAI
